import Mathlib

/-!
Favorites Synchronization Protocol — embedding.

Shallow embedding of the favorites read-modify-write protocol of the
Countries app:

* `addCountryToFavorites` — `src/screens/CountryDetailsScreen.js`
* `getCountryFromDB` (the `queryIsFavorite` read) — `src/screens/CountryDetailsScreen.js`
* `getCountriesFromDB` (favorites-list refresh) — `src/screens/FavoriteCountriesScreen.js`
* `deleteCountryFromFavorites` — `src/screens/FavoriteCountriesScreen.js`

The Firestore document store for the fixed collection `"favoriteCountries"`
and the current user's uid is modelled as the state of that single
document: `none` when the document does not exist, `some docData` when it
exists, where `docData : Option (List Country)` records whether the
`countries` field is present and, if so, its value.

Asynchronous store calls that may fail (getDoc / setDoc / updateDoc /
deleteDoc wrapped in try/catch in the source) are modelled by explicit
Boolean success parameters; a failed call leaves the store unchanged and
transfers control to the catch block of the source function.
-/

/-- A country as persisted in the favorites list.  The source stores the
whole country-details object; only `cca2` (the natural key used by every
comparison), `name` and `capital` matter to the protocol. -/
structure Country where
  cca2 : String
  name : String
  capital : String
  deriving Repr, DecidableEq

/-- The state of the per-user favorites document:
`none` — the document does not exist;
`some none` — the document exists but has no `countries` field;
`some (some l)` — the document exists and its `countries` field is `l`. -/
abbrev FavoritesStore := Option (Option (List Country))

/-- The field `docData.countries` defaulted to the empty array, as in
`let favoriteCountries = []; if (docData.countries) { favoriteCountries = docData.countries }`. -/
def countriesField : Option (List Country) → List Country
  | some l => l
  | none => []

/-- The current `countries` sequence of the store: empty if the document
does not exist or has no `countries` field. -/
def currentCountries : FavoritesStore → List Country
  | some docData => countriesField docData
  | none => []

/-- Result of `addCountryToFavorites`, identified by the alert the source
shows: added, already in the favorites list, or the catch-block error. -/
inductive AddResult
  | added
  | alreadyPresent
  | addFavoriteFailed
  deriving Repr, DecidableEq

/-- Outcome of one `addCountryToFavorites` call: the store afterwards, the
`countryAlreadyAdded` UI flag afterwards, and the surfaced result. -/
structure AddOutcome where
  store : FavoritesStore
  countryAlreadyAdded : Bool
  result : AddResult
  deriving Repr, DecidableEq

/-- Function `addCountryToFavorites` from `CountryDetailsScreen.js`.

Here `flag` is the `countryAlreadyAdded` state before the call; `readOk` and
`writeOk` are the success of the `getDoc` and `setDoc` store calls.  On any
store failure the catch block runs: only an alert, no state change. -/
def addCountryToFavorites (store : FavoritesStore) (flag : Bool)
    (country : Country) (readOk writeOk : Bool) : AddOutcome :=
  if !readOk then
    ⟨store, flag, .addFavoriteFailed⟩
  else
    match store with
    | some docData =>
        let favoriteCountries := countriesField docData
        let isCountryAlreadyAdded :=
          favoriteCountries.find? (fun favCountry => favCountry.cca2 == country.cca2)
        if isCountryAlreadyAdded.isNone then
          if writeOk then
            ⟨some (some (favoriteCountries ++ [country])), true, .added⟩
          else
            ⟨store, flag, .addFavoriteFailed⟩
        else
          ⟨store, flag, .alreadyPresent⟩
    | none =>
        if writeOk then
          ⟨some (some [country]), true, .added⟩
        else
          ⟨store, flag, .addFavoriteFailed⟩

/-- Outcome of the `queryIsFavorite` read: the store afterwards (the read
performs no write) and whether a matching entry was found (the condition
under which the source runs `setCountryAlreadyAdded(true)`). -/
structure QueryOutcome where
  store : FavoritesStore
  found : Bool
  deriving Repr, DecidableEq

/-- Function `getCountryFromDB` from `CountryDetailsScreen.js`: read the favorites
document and report whether an entry with the given `cca2` is present. -/
def getCountryFromDB (store : FavoritesStore) (cca2 : String) : QueryOutcome :=
  match store with
  | some docData =>
      let favoriteCountries := countriesField docData
      ⟨store, (favoriteCountries.find? (fun favCountry => favCountry.cca2 == cca2)).isSome⟩
  | none => ⟨store, false⟩

/-- Result of `deleteCountryFromFavorites`: the success alert after an
`updateDoc` (document kept), the success alert after a `deleteDoc`
(document removed), or the catch-block error. -/
inductive RemoveResult
  | removed
  | documentDeleted
  | removeFavoriteFailed
  deriving Repr, DecidableEq

/-- Client state of `FavoriteCountriesScreen.js`: the store plus the two
useState variables `countriesFromDB` (the cached list) and
`emptyFavoritesFromDB`. -/
structure FavoritesScreenState where
  store : FavoritesStore
  countriesFromDB : List Country
  emptyFavoritesFromDB : Bool
  deriving Repr, DecidableEq

/-- Function `getCountriesFromDB` from `FavoriteCountriesScreen.js`: refresh the
cached list.  The state changes only when the document exists and its
`countries` field is present and non-empty
(`countriesData.countries && countriesData.countries.length > 0`). -/
def getCountriesFromDB (readOk : Bool) (st : FavoritesScreenState) :
    FavoritesScreenState :=
  if !readOk then st
  else
    match st.store with
    | some docData =>
        match docData with
        | some countries =>
            if countries.length > 0 then ⟨st.store, countries, false⟩ else st
        | none => st
    | none => st

/-- Firestore `updateDoc(ref, \x7b countries \x7d)`: merges the `countries`
field into an existing document; throws (`none`) if the document does not
exist. -/
def updateDocCountries (store : FavoritesStore) (countries : List Country) :
    Option FavoritesStore :=
  match store with
  | some _ => some (some (some countries))
  | none => none

/-- Function `deleteCountryFromFavorites` from `FavoriteCountriesScreen.js`.

Filters the cached `countriesFromDB` (not a fresh read) by
`i.cca2 !== country.cca2`; if the filtered list is non-empty it writes it
back with `updateDoc`, updates the cached list and re-runs
`getCountriesFromDB`; otherwise it deletes the whole document and sets the
empty-favorites flag.  `storeOk` is the success of the `updateDoc` /
`deleteDoc` call, `refetchOk` the success of the re-fetch's `getDoc`; a
failed store call reaches the catch block: only an alert, no state change. -/
def deleteCountryFromFavorites (st : FavoritesScreenState) (country : Country)
    (storeOk refetchOk : Bool) : FavoritesScreenState × RemoveResult :=
  let updatedFavoriteCountries :=
    st.countriesFromDB.filter (fun i => i.cca2 != country.cca2)
  if updatedFavoriteCountries.length > 0 then
    if storeOk then
      match updateDocCountries st.store updatedFavoriteCountries with
      | some newStore =>
          let st1 : FavoritesScreenState :=
            ⟨newStore, updatedFavoriteCountries, st.emptyFavoritesFromDB⟩
          (getCountriesFromDB refetchOk st1, .removed)
      | none => (st, .removeFavoriteFailed)
    else (st, .removeFavoriteFailed)
  else
    if storeOk then
      (⟨none, st.countriesFromDB, true⟩, .documentDeleted)
    else (st, .removeFavoriteFailed)

/-- The FavoritesDocument invariant: if the document exists, its
`countries` field is present and non-empty. -/
def docInvariant : FavoritesStore → Bool
  | none => true
  | some none => false
  | some (some l) => !l.isEmpty

/-- Sample countries for concrete witnesses. -/
def usCountry : Country := ⟨"US", "United States", "Washington"⟩

def caCountry : Country := ⟨"CA", "Canada", "Ottawa"⟩

def mxCountry : Country := ⟨"MX", "Mexico", "Mexico City"⟩

/-- If no entry of `l` has code `c`, the membership scan of the source
(`favoriteCountries.find(favCountry => favCountry.cca2 === c)`) finds
nothing. -/
lemma find?_cca2_eq_none (l : List Country) (c : String)
    (h : ∀ x ∈ l, x.cca2 ≠ c) :
    l.find? (fun x => x.cca2 == c) = none := by
  rw [List.find?_eq_none]
  intro x hx
  simpa using h x hx

/-- On a successful read of an existing document whose entries all miss the
new country's code, the add operation appends and writes. -/
lemma addCountryToFavorites_of_find_none (docData : Option (List Country))
    (flag : Bool) (country : Country)
    (h0 : (countriesField docData).find?
      (fun x => x.cca2 == country.cca2) = none) :
    addCountryToFavorites (some docData) flag country true true
      = ⟨some (some (countriesField docData ++ [country])), true, .added⟩ := by
  simp only [addCountryToFavorites]
  rw [h0]
  simp

/-- A query for the code of an entry of the stored sequence succeeds. -/
lemma getCountryFromDB_found_of_mem (store : FavoritesStore)
    (docData : Option (List Country)) (x : Country)
    (hst : store = some docData) (hx : x ∈ countriesField docData) :
    (getCountryFromDB store x.cca2).found = true := by
  subst hst
  show ((countriesField docData).find?
      (fun favCountry => favCountry.cca2 == x.cca2)).isSome = true
  exact List.find?_isSome.mpr ⟨x, hx, by simp⟩

/-- C1: for every stored state and every country whose code does not appear
in the current countries sequence (empty if the document is absent or has
no `countries` field), a successful `addCountryToFavorites` writes a
document whose `countries` equals the current sequence with the new
country appended, and a subsequent `getCountryFromDB` query for that code
returns true. -/
theorem addFavorite_appends_and_isFavorite (store : FavoritesStore)
    (flag : Bool) (country : Country)
    (h : ∀ x ∈ currentCountries store, x.cca2 ≠ country.cca2) :
    (addCountryToFavorites store flag country true true).store
        = some (some (currentCountries store ++ [country]))
    ∧ (getCountryFromDB
        (addCountryToFavorites store flag country true true).store
        country.cca2).found = true := by
  cases store with
  | none =>
      refine ⟨rfl, ?_⟩
      exact getCountryFromDB_found_of_mem _ (some [country]) country rfl
        (by simp [countriesField])
  | some docData =>
      have h0 : (countriesField docData).find?
          (fun x => x.cca2 == country.cca2) = none :=
        find?_cca2_eq_none _ _ (by simpa [currentCountries] using h)
      have he := addCountryToFavorites_of_find_none docData flag country h0
      refine ⟨?_, ?_⟩
      · rw [he]
        rfl
      · rw [he]
        exact getCountryFromDB_found_of_mem _
          (some (countriesField docData ++ [country])) country rfl
          (by simp [countriesField])

/-- C2: for every stored document and every country whose code already
equals the code of some stored entry, `addCountryToFavorites` performs no
write — store and UI flag are unchanged whatever the outcome of a would-be
write — and the result is the non-error `alreadyPresent` notice. -/
theorem addFavorite_alreadyPresent_no_write (docData : Option (List Country))
    (flag writeOk : Bool) (country : Country)
    (h : ∃ x ∈ countriesField docData, x.cca2 = country.cca2) :
    addCountryToFavorites (some docData) flag country true writeOk
      = ⟨some docData, flag, .alreadyPresent⟩ := by
  obtain ⟨x, hx, hcode⟩ := h
  have hs : ((countriesField docData).find?
      (fun f => f.cca2 == country.cca2)).isSome = true :=
    List.find?_isSome.mpr ⟨x, hx, by simp [hcode]⟩
  obtain ⟨y, hy⟩ := Option.isSome_iff_exists.mp hs
  simp [addCountryToFavorites, hy]

/-- C2 witness: with `US` already stored, adding `US` again leaves the
store and flag unchanged and reports `alreadyPresent`. -/
theorem addFavorite_alreadyPresent_no_write_witness :
    addCountryToFavorites (some (some [usCountry])) false usCountry true true
      = ⟨some (some [usCountry]), false, .alreadyPresent⟩ :=
  addFavorite_alreadyPresent_no_write (some [usCountry]) false true usCountry
    ⟨usCountry, by simp [countriesField], rfl⟩

/-- C1 witness: adding `CA` to a store holding only `US` appends it, and
the favorite query for `CA` then returns true. -/
theorem addFavorite_appends_and_isFavorite_witness :
    (addCountryToFavorites (some (some [usCountry])) false caCountry
        true true).store
      = some (some (currentCountries (some (some [usCountry])) ++ [caCountry]))
    ∧ (getCountryFromDB
        (addCountryToFavorites (some (some [usCountry])) false caCountry
          true true).store
        caCountry.cca2).found = true :=
  addFavorite_appends_and_isFavorite (some (some [usCountry])) false caCountry
    (by decide)

/-- C4: `getCountryFromDB` performs no write, and its result is true iff
the document exists and its `countries` sequence (empty when the field is
absent) contains an entry whose code equals the queried code; in
particular it is false when the document is absent, when `countries` is
absent or empty, and when no entry matches. -/
theorem queryIsFavorite_spec (store : FavoritesStore) (cca2 : String) :
    (getCountryFromDB store cca2).store = store
    ∧ ((getCountryFromDB store cca2).found = true ↔
        ∃ docData, store = some docData
          ∧ ∃ x ∈ countriesField docData, x.cca2 = cca2)
    ∧ (store = none → (getCountryFromDB store cca2).found = false)
    ∧ (∀ docData, store = some docData → countriesField docData = [] →
        (getCountryFromDB store cca2).found = false)
    ∧ (∀ docData, store = some docData →
        (∀ x ∈ countriesField docData, x.cca2 ≠ cca2) →
        (getCountryFromDB store cca2).found = false) := by
  refine ⟨?_, ?_, ?_, ?_, ?_⟩
  · cases store <;> rfl
  · cases store with
    | none => simp [getCountryFromDB]
    | some docData => simp [getCountryFromDB, List.find?_isSome]
  · intro h
    subst h
    rfl
  · intro docData h hempty
    subst h
    simp [getCountryFromDB, hempty]
  · intro docData h hnone
    subst h
    simp [getCountryFromDB, find?_cca2_eq_none _ _ hnone]

/-- C4 witness: a store holding only `US` answers true for code `US` with
the store untouched, and a missing document answers false. -/
theorem queryIsFavorite_spec_witness :
    (getCountryFromDB (some (some [usCountry])) "US").store
        = some (some [usCountry])
    ∧ (getCountryFromDB (some (some [usCountry])) "US").found = true
    ∧ (getCountryFromDB none "US").found = false :=
  ⟨(queryIsFavorite_spec (some (some [usCountry])) "US").1,
   (queryIsFavorite_spec (some (some [usCountry])) "US").2.1.mpr
     ⟨some [usCountry], rfl, usCountry, by simp [countriesField], rfl⟩,
   (queryIsFavorite_spec none "US").2.2.1 rfl⟩

/-- When the read succeeds and some entry matches the new country's code,
the add operation takes the already-added branch: no write, no flag
change. -/
lemma addCountryToFavorites_of_find_some (docData : Option (List Country))
    (flag writeOk : Bool) (country : Country) (y : Country)
    (hfind : (countriesField docData).find?
      (fun x => x.cca2 == country.cca2) = some y) :
    addCountryToFavorites (some docData) flag country true writeOk
      = ⟨some docData, flag, .alreadyPresent⟩ := by
  simp only [addCountryToFavorites]
  rw [hfind]
  simp

/-- When the read succeeds, no entry matches, and the write fails, the add
operation reaches the catch block with nothing changed. -/
lemma addCountryToFavorites_writeFail (docData : Option (List Country))
    (flag : Bool) (country : Country)
    (hfind : (countriesField docData).find?
      (fun x => x.cca2 == country.cca2) = none) :
    addCountryToFavorites (some docData) flag country true false
      = ⟨some docData, flag, .addFavoriteFailed⟩ := by
  simp only [addCountryToFavorites]
  rw [hfind]
  simp

/-- The list refresh never writes: the store component is untouched. -/
lemma getCountriesFromDB_store (readOk : Bool) (st : FavoritesScreenState) :
    (getCountriesFromDB readOk st).store = st.store := by
  obtain ⟨s, l, f⟩ := st
  cases readOk with
  | false => rfl
  | true =>
      cases s with
      | none => rfl
      | some docData =>
          cases docData with
          | none => rfl
          | some cs =>
              by_cases hc : cs.length > 0
              · simp [getCountriesFromDB, hc]
              · simp [getCountriesFromDB, hc]

/-- A successful refresh of a document whose `countries` list is non-empty
replaces the cached list and clears the empty-favorites flag. -/
lemma getCountriesFromDB_nonempty (st : FavoritesScreenState)
    (l : List Country) (hst : st.store = some (some l)) (hne : l ≠ []) :
    getCountriesFromDB true st = ⟨some (some l), l, false⟩ := by
  have hlen : l.length > 0 := List.length_pos.mpr hne
  simp only [getCountriesFromDB, hst]
  simp [hlen]

/-- Remove, non-empty filtered list, document present, successful store
call: the filtered list is written back with `updateDoc`, the cached list
is refreshed, and the success alert fires. -/
lemma deleteCountryFromFavorites_update (st : FavoritesScreenState)
    (country : Country) (refetchOk : Bool) (docData : Option (List Country))
    (hst : st.store = some docData)
    (hne : st.countriesFromDB.filter (fun i => i.cca2 != country.cca2) ≠ []) :
    deleteCountryFromFavorites st country true refetchOk
      = (getCountriesFromDB refetchOk
          ⟨some (some (st.countriesFromDB.filter
              (fun i => i.cca2 != country.cca2))),
            st.countriesFromDB.filter (fun i => i.cca2 != country.cca2),
            st.emptyFavoritesFromDB⟩,
         .removed) := by
  have hlen : (st.countriesFromDB.filter
      (fun i => i.cca2 != country.cca2)).length > 0 := List.length_pos.mpr hne
  simp only [deleteCountryFromFavorites, hst, updateDocCountries]
  simp [hlen]

/-- Remove, empty filtered list, successful store call: the whole document
is deleted and the empty-favorites flag is set. -/
lemma deleteCountryFromFavorites_delete (st : FavoritesScreenState)
    (country : Country) (refetchOk : Bool)
    (hfil : st.countriesFromDB.filter (fun i => i.cca2 != country.cca2) = []) :
    deleteCountryFromFavorites st country true refetchOk
      = (⟨none, st.countriesFromDB, true⟩, .documentDeleted) := by
  simp only [deleteCountryFromFavorites, hfil]
  simp

/-- Remove, non-empty filtered list, but no document to update: `updateDoc`
throws and the catch block leaves the state unchanged. -/
lemma deleteCountryFromFavorites_noDoc (st : FavoritesScreenState)
    (country : Country) (refetchOk : Bool) (hst : st.store = none)
    (hne : st.countriesFromDB.filter (fun i => i.cca2 != country.cca2) ≠ []) :
    deleteCountryFromFavorites st country true refetchOk
      = (st, .removeFavoriteFailed) := by
  have hlen : (st.countriesFromDB.filter
      (fun i => i.cca2 != country.cca2)).length > 0 := List.length_pos.mpr hne
  simp only [deleteCountryFromFavorites, hst, updateDocCountries]
  simp [hlen]

/-- C3: successful add and remove operations preserve the invariant that
the favorites document, if it exists, has a non-empty `countries`
sequence; and removing the only favorite of a single-entry document
deletes the whole document, so a subsequent query reads not-found. -/
theorem favorites_nonempty_doc_invariant :
    (∀ (store : FavoritesStore) (flag : Bool) (country : Country),
        docInvariant store = true →
        docInvariant (addCountryToFavorites store flag country true true).store
          = true)
    ∧ (∀ (st : FavoritesScreenState) (country : Country),
        docInvariant st.store = true →
        docInvariant
          (deleteCountryFromFavorites st country true true).1.store = true)
    ∧ (∀ (country : Country) (flag : Bool),
        deleteCountryFromFavorites
            ⟨some (some [country]), [country], flag⟩ country true true
          = (⟨none, [country], true⟩, .documentDeleted)
        ∧ (getCountryFromDB
            (deleteCountryFromFavorites
              ⟨some (some [country]), [country], flag⟩ country true true).1.store
            country.cca2).found = false) := by
  refine ⟨?_, ?_, ?_⟩
  · intro store flag country h
    cases store with
    | none => rfl
    | some docData =>
        cases hfind : (countriesField docData).find?
            (fun x => x.cca2 == country.cca2) with
        | none =>
            rw [addCountryToFavorites_of_find_none docData flag country hfind]
            simp [docInvariant]
        | some y =>
            rw [addCountryToFavorites_of_find_some docData flag true country y
              hfind]
            exact h
  · intro st country h
    by_cases hfil : st.countriesFromDB.filter
        (fun i => i.cca2 != country.cca2) = []
    · rw [deleteCountryFromFavorites_delete st country true hfil]
      rfl
    · cases hst : st.store with
      | none =>
          rw [deleteCountryFromFavorites_noDoc st country true hst hfil]
          exact h
      | some docData =>
          rw [deleteCountryFromFavorites_update st country true docData hst
            hfil]
          rw [getCountriesFromDB_store]
          simp [docInvariant, hfil]
  · intro country flag
    have hfil : (FavoritesScreenState.countriesFromDB
          ⟨some (some [country]), [country], flag⟩).filter
        (fun i => i.cca2 != country.cca2) = [] := by
      simp
    rw [deleteCountryFromFavorites_delete _ country true hfil]
    exact ⟨rfl, rfl⟩

/-- C3 witness: adding to a one-entry store keeps the invariant, and
removing the only entry deletes the document. -/
theorem favorites_nonempty_doc_invariant_witness :
    docInvariant
        (addCountryToFavorites (some (some [usCountry])) false caCountry
          true true).store = true
    ∧ deleteCountryFromFavorites
          ⟨some (some [usCountry]), [usCountry], false⟩ usCountry true true
        = (⟨none, [usCountry], true⟩, .documentDeleted) :=
  ⟨favorites_nonempty_doc_invariant.1 (some (some [usCountry])) false caCountry
      (by decide),
   (favorites_nonempty_doc_invariant.2.2 usCountry false).1⟩

/-- C9: when the favorites document is absent, has no `countries` field,
or has an empty `countries` list, the list refresh leaves the screen state
untouched: the cached list is not replaced and the empty-favorites flag is
not cleared, so a present-but-empty document renders exactly like an
absent one. -/
theorem favoritesRefresh_empty_doc_same_as_absent (st : FavoritesScreenState)
    (readOk : Bool)
    (h : st.store = some (some []) ∨ st.store = some none ∨ st.store = none) :
    getCountriesFromDB readOk st = st := by
  obtain ⟨s, l, f⟩ := st
  cases readOk with
  | false => rfl
  | true =>
      rcases h with h | h | h <;>
        simp only [FavoritesScreenState.store] at h <;> subst h <;> rfl

/-- C9 witness: a refresh against a present-but-empty document and one
against a missing document both leave the initial screen state as is. -/
theorem favoritesRefresh_empty_doc_same_as_absent_witness :
    getCountriesFromDB true ⟨some (some []), [], true⟩
        = (⟨some (some []), [], true⟩ : FavoritesScreenState)
    ∧ getCountriesFromDB true ⟨none, [], true⟩
        = (⟨none, [], true⟩ : FavoritesScreenState) :=
  ⟨favoritesRefresh_empty_doc_same_as_absent ⟨some (some []), [], true⟩ true
      (Or.inl rfl),
   favoritesRefresh_empty_doc_same_as_absent ⟨none, [], true⟩ true
      (Or.inr (Or.inr rfl))⟩

/-- A cached list of at least two pairwise-distinct codes never filters
down to empty when removing one code. -/
lemma filter_ne_nil_of_two_distinct (cached : List Country) (c : String)
    (hlen : 2 ≤ cached.length)
    (hnodup : cached.Pairwise (fun a b => a.cca2 ≠ b.cca2)) :
    cached.filter (fun i => i.cca2 != c) ≠ [] := by
  match cached, hlen, hnodup with
  | a :: b :: t, _, hnodup =>
    intro hnil
    rw [List.filter_eq_nil_iff] at hnil
    have ha := hnil a (by simp)
    have hb := hnil b (by simp)
    simp only [bne_iff_ne, ne_eq, not_not] at ha hb
    exact (List.pairwise_cons.mp hnodup).1 b (by simp) (ha.trans hb.symm)

/-- C5: removing a member country from a cached sequence of at least two
pairwise-distinct codes filters exactly the matching entries out of the
caller's cached copy — the written list is the same whatever the stored
document currently holds — writes the filtered list back via `updateDoc`,
keeps the remaining entries in their original relative order, and leaves
the document present. -/
theorem removeFavorite_filters_cached (docData : Option (List Country))
    (cached : List Country) (flag : Bool) (country : Country)
    (hlen : 2 ≤ cached.length)
    (hnodup : cached.Pairwise (fun a b => a.cca2 ≠ b.cca2))
    (hmem : ∃ x ∈ cached, x.cca2 = country.cca2) :
    (deleteCountryFromFavorites ⟨some docData, cached, flag⟩ country
        true true).2 = .removed
    ∧ (deleteCountryFromFavorites ⟨some docData, cached, flag⟩ country
        true true).1.store
        = some (some (cached.filter (fun i => i.cca2 != country.cca2)))
    ∧ (deleteCountryFromFavorites ⟨some docData, cached, flag⟩ country
        true true).1.countriesFromDB
        = cached.filter (fun i => i.cca2 != country.cca2)
    ∧ List.Sublist (cached.filter (fun i => i.cca2 != country.cca2)) cached
    ∧ ∀ x, (x ∈ cached.filter (fun i => i.cca2 != country.cca2)
        ↔ x ∈ cached ∧ x.cca2 ≠ country.cca2) := by
  have hne : cached.filter (fun i => i.cca2 != country.cca2) ≠ [] :=
    filter_ne_nil_of_two_distinct cached country.cca2 hlen hnodup
  have hget := getCountriesFromDB_nonempty
    ⟨some (some (cached.filter (fun i => i.cca2 != country.cca2))),
      cached.filter (fun i => i.cca2 != country.cca2), flag⟩
    (cached.filter (fun i => i.cca2 != country.cca2)) rfl hne
  have hmk : deleteCountryFromFavorites ⟨some docData, cached, flag⟩ country
      true true
      = (⟨some (some (cached.filter (fun i => i.cca2 != country.cca2))),
          cached.filter (fun i => i.cca2 != country.cca2), false⟩,
         .removed) := by
    rw [deleteCountryFromFavorites_update ⟨some docData, cached, flag⟩ country
      true docData rfl hne]
    exact congrArg (fun s => (s, RemoveResult.removed)) hget
  rw [hmk]
  exact ⟨rfl, rfl, rfl, List.filter_sublist cached,
    fun x => by simp [List.mem_filter]⟩

/-- C5 witness: the spec example — cached `[US, CA, MX]`, remove `CA` —
reports success and leaves `[US, MX]` cached, store present. -/
theorem removeFavorite_filters_cached_witness :
    (deleteCountryFromFavorites
        ⟨some (some [usCountry, caCountry, mxCountry]),
          [usCountry, caCountry, mxCountry], false⟩ caCountry true true).2
      = .removed
    ∧ (deleteCountryFromFavorites
        ⟨some (some [usCountry, caCountry, mxCountry]),
          [usCountry, caCountry, mxCountry], false⟩ caCountry true true).1.countriesFromDB
      = [usCountry, caCountry, mxCountry].filter
          (fun i => i.cca2 != caCountry.cca2) :=
  ⟨(removeFavorite_filters_cached (some [usCountry, caCountry, mxCountry])
      [usCountry, caCountry, mxCountry] false caCountry (by decide) (by decide)
      ⟨caCountry, by simp, rfl⟩).1,
   (removeFavorite_filters_cached (some [usCountry, caCountry, mxCountry])
      [usCountry, caCountry, mxCountry] false caCountry (by decide) (by decide)
      ⟨caCountry, by simp, rfl⟩).2.2.1⟩

/-- C6: the add operation preserves code uniqueness — whatever the outcome
of its store calls, if the sequence it read has pairwise-distinct codes,
so does the sequence it leaves stored, because the membership scan before
the append is exhaustive over the full current sequence. -/
theorem addFavorite_preserves_code_uniqueness (store : FavoritesStore)
    (flag : Bool) (country : Country) (readOk writeOk : Bool)
    (h : ((currentCountries store).map Country.cca2).Nodup) :
    ((currentCountries
        (addCountryToFavorites store flag country readOk writeOk).store).map
      Country.cca2).Nodup := by
  cases readOk with
  | false => exact h
  | true =>
      cases store with
      | none =>
          cases writeOk with
          | false => exact h
          | true => simp [addCountryToFavorites, currentCountries,
              countriesField]
      | some docData =>
          cases hfind : (countriesField docData).find?
              (fun x => x.cca2 == country.cca2) with
          | some y =>
              rw [addCountryToFavorites_of_find_some docData flag writeOk
                country y hfind]
              exact h
          | none =>
              cases writeOk with
              | false =>
                  rw [addCountryToFavorites_writeFail docData flag country
                    hfind]
                  exact h
              | true =>
                  rw [addCountryToFavorites_of_find_none docData flag country
                    hfind]
                  have hnotmem : country.cca2 ∉
                      (countriesField docData).map Country.cca2 := by
                    rw [List.find?_eq_none] at hfind
                    simp only [List.mem_map]
                    rintro ⟨x, hx, hcode⟩
                    exact absurd (by simp [hcode]) (hfind x hx)
                  have h0 : ((countriesField docData).map Country.cca2).Nodup :=
                    h
                  show (((countriesField docData) ++ [country]).map
                      Country.cca2).Nodup
                  rw [List.map_append]
                  simp [List.nodup_append, h0, hnotmem]

/-- C6 witness: adding `CA` to a store of `[US]` keeps the stored codes
pairwise distinct. -/
theorem addFavorite_preserves_code_uniqueness_witness :
    ((currentCountries
        (addCountryToFavorites (some (some [usCountry])) false caCountry
          true true).store).map Country.cca2).Nodup :=
  addFavorite_preserves_code_uniqueness (some (some [usCountry])) false
    caCountry true true (by decide)

/-- C8: removing a country whose code is not in the non-empty cached
sequence still performs a store write — the unchanged sequence is written
back via `updateDoc` — and the user is shown the success alert
(`removed`), with no distinct not-found outcome. -/
theorem removeFavorite_nonmember_still_writes (docData : Option (List Country))
    (cached : List Country) (flag : Bool) (country : Country)
    (hne : cached ≠ [])
    (hno : ∀ x ∈ cached, x.cca2 ≠ country.cca2) :
    deleteCountryFromFavorites ⟨some docData, cached, flag⟩ country true true
      = (⟨some (some cached), cached, false⟩, .removed) := by
  have hfil : cached.filter (fun i => i.cca2 != country.cca2) = cached := by
    rw [List.filter_eq_self]
    intro a ha
    simpa using hno a ha
  have hne2 : cached.filter (fun i => i.cca2 != country.cca2) ≠ [] := by
    rw [hfil]
    exact hne
  have hget := getCountriesFromDB_nonempty
    ⟨some (some (cached.filter (fun i => i.cca2 != country.cca2))),
      cached.filter (fun i => i.cca2 != country.cca2), flag⟩
    (cached.filter (fun i => i.cca2 != country.cca2)) rfl hne2
  have hmk : deleteCountryFromFavorites ⟨some docData, cached, flag⟩ country
      true true
      = (⟨some (some (cached.filter (fun i => i.cca2 != country.cca2))),
          cached.filter (fun i => i.cca2 != country.cca2), false⟩,
         .removed) := by
    rw [deleteCountryFromFavorites_update ⟨some docData, cached, flag⟩ country
      true docData rfl hne2]
    exact congrArg (fun s => (s, RemoveResult.removed)) hget
  rw [hmk, hfil]

/-- C8 witness: removing `CA` from a cached list holding only `US` still
writes `[US]` back and reports success. -/
theorem removeFavorite_nonmember_still_writes_witness :
    deleteCountryFromFavorites ⟨some (some [usCountry]), [usCountry], false⟩
        caCountry true true
      = (⟨some (some [usCountry]), [usCountry], false⟩, .removed) :=
  removeFavorite_nonmember_still_writes (some [usCountry]) [usCountry] false
    caCountry (by decide) (by decide)

/-- C7: store failures leave no partial client state.  A failed read or a
failed write inside the add operation leaves the store and the favorited
indicator exactly as they were; the indicator can only flip on an `added`
outcome, which requires a successful read and write; and a failed store
call inside the remove operation returns the screen state — cached list
and empty-state flag included — unchanged. -/
theorem favorites_failure_no_partial_state :
    (∀ (store : FavoritesStore) (flag : Bool) (country : Country)
        (writeOk : Bool),
        addCountryToFavorites store flag country false writeOk
          = ⟨store, flag, .addFavoriteFailed⟩)
    ∧ (∀ (store : FavoritesStore) (flag : Bool) (country : Country),
        (addCountryToFavorites store flag country true false).store = store
        ∧ (addCountryToFavorites store flag country true
            false).countryAlreadyAdded = flag)
    ∧ (∀ (store : FavoritesStore) (flag : Bool) (country : Country)
        (readOk writeOk : Bool),
        (addCountryToFavorites store flag country readOk
            writeOk).countryAlreadyAdded ≠ flag →
        (addCountryToFavorites store flag country readOk writeOk).result
            = .added
          ∧ readOk = true ∧ writeOk = true)
    ∧ (∀ (st : FavoritesScreenState) (country : Country) (refetchOk : Bool),
        deleteCountryFromFavorites st country false refetchOk
          = (st, .removeFavoriteFailed)) := by
  refine ⟨?_, ?_, ?_, ?_⟩
  · intro store flag country writeOk
    rfl
  · intro store flag country
    cases store with
    | none => exact ⟨rfl, rfl⟩
    | some docData =>
        cases hfind : (countriesField docData).find?
            (fun x => x.cca2 == country.cca2) with
        | none =>
            rw [addCountryToFavorites_writeFail docData flag country hfind]
            exact ⟨rfl, rfl⟩
        | some y =>
            rw [addCountryToFavorites_of_find_some docData flag false country y
              hfind]
            exact ⟨rfl, rfl⟩
  · intro store flag country readOk writeOk hflip
    cases readOk with
    | false => exact absurd rfl hflip
    | true =>
        cases store with
        | none =>
            cases writeOk with
            | false => exact absurd rfl hflip
            | true => exact ⟨rfl, rfl, rfl⟩
        | some docData =>
            cases hfind : (countriesField docData).find?
                (fun x => x.cca2 == country.cca2) with
            | some y =>
                rw [addCountryToFavorites_of_find_some docData flag writeOk
                  country y hfind] at hflip
                exact absurd rfl hflip
            | none =>
                cases writeOk with
                | false =>
                    rw [addCountryToFavorites_writeFail docData flag country
                      hfind] at hflip
                    exact absurd rfl hflip
                | true =>
                    rw [addCountryToFavorites_of_find_none docData flag
                      country hfind]
                    exact ⟨rfl, rfl, rfl⟩
  · intro st country refetchOk
    by_cases hlen : (st.countriesFromDB.filter
        (fun i => i.cca2 != country.cca2)).length > 0
    · simp [deleteCountryFromFavorites, hlen]
    · simp [deleteCountryFromFavorites, hlen]

/-- C7 witness: a failed read changes nothing, and a successful fresh add
flips the indicator with an `added` result. -/
theorem favorites_failure_no_partial_state_witness :
    addCountryToFavorites (some (some [usCountry])) false caCountry false true
        = ⟨some (some [usCountry]), false, .addFavoriteFailed⟩
    ∧ ((addCountryToFavorites none false usCountry true true).result = .added
        ∧ true = true ∧ true = true)
    ∧ deleteCountryFromFavorites ⟨some (some [usCountry]), [usCountry], false⟩
        caCountry false true
      = (⟨some (some [usCountry]), [usCountry], false⟩,
         .removeFavoriteFailed) :=
  ⟨favorites_failure_no_partial_state.1 (some (some [usCountry])) false
      caCountry true,
   favorites_failure_no_partial_state.2.2.1 none false usCountry true true
      (by decide),
   favorites_failure_no_partial_state.2.2.2
      ⟨some (some [usCountry]), [usCountry], false⟩ caCountry true⟩

/-- C10: both mutation operations are deterministic — two runs from equal
stored states (and, for remove, equal cached screen states), with equal
input country and equal success outcomes of every store call, produce
equal resulting states and results. -/
theorem favorites_operations_deterministic :
    (∀ (s1 s2 : FavoritesStore) (f1 f2 : Bool) (c1 c2 : Country)
        (r1 r2 w1 w2 : Bool),
        s1 = s2 → f1 = f2 → c1 = c2 → r1 = r2 → w1 = w2 →
        addCountryToFavorites s1 f1 c1 r1 w1
          = addCountryToFavorites s2 f2 c2 r2 w2)
    ∧ (∀ (st1 st2 : FavoritesScreenState) (c1 c2 : Country)
        (o1 o2 p1 p2 : Bool),
        st1 = st2 → c1 = c2 → o1 = o2 → p1 = p2 →
        deleteCountryFromFavorites st1 c1 o1 p1
          = deleteCountryFromFavorites st2 c2 o2 p2) := by
  constructor
  · intro s1 s2 f1 f2 c1 c2 r1 r2 w1 w2 hs hf hc hr hw
    rw [hs, hf, hc, hr, hw]
  · intro st1 st2 c1 c2 o1 o2 p1 p2 hst hc ho hp
    rw [hst, hc, ho, hp]

/-- C10 witness: the determinism theorem applied to two identical add runs
and two identical remove runs. -/
theorem favorites_operations_deterministic_witness :
    addCountryToFavorites (some (some [usCountry])) false caCountry true true
        = addCountryToFavorites (some (some [usCountry])) false caCountry
            true true
    ∧ deleteCountryFromFavorites
          ⟨some (some [usCountry]), [usCountry], false⟩ usCountry true true
        = deleteCountryFromFavorites
            ⟨some (some [usCountry]), [usCountry], false⟩ usCountry true true :=
  ⟨favorites_operations_deterministic.1 (some (some [usCountry]))
      (some (some [usCountry])) false false caCountry caCountry true true true
      true rfl rfl rfl rfl rfl,
   favorites_operations_deterministic.2
      ⟨some (some [usCountry]), [usCountry], false⟩
      ⟨some (some [usCountry]), [usCountry], false⟩ usCountry usCountry true
      true true true rfl rfl rfl rfl⟩
